import Mathlib

/-!
Shallow embedding of the telegram-serp-bot program (src/main.py).

The program has two logical pieces:

* `serper_search` (main.py lines 38-102): posts a query to the Serper API,
  raises a `RuntimeError` when the API key is unset, when the request fails,
  or when the status is a 4xx/5xx; parses `resp.json()` (note: OUTSIDE the
  try block, so a malformed body raises an uncaught `JSONDecodeError`);
  reads `data.get("organic") or data.get("organic_results") or []` and keeps
  the items that have a truthy title and link.

* `search_command` (main.py lines 140-208): the `/s` handler; replies with a
  usage text on empty args, reports `RuntimeError`s from the search inside
  an HTML error message, replies a dedicated message when the result list is
  empty, and otherwise renders one block per result (position, title, link,
  snippet clipped to 200 characters) joined by newlines, truncating the whole
  text at 4000 characters.

Python dictionary lookups, truthiness and `None` are modelled explicitly:
a JSON string field is `JStr` (absent / null / a string), and Python
truthiness of an optional string or list is spelt out as a `Bool` function.
-/

/-- Model of a JSON string-valued field of a provider item: the key can be
absent, null, or hold a string. -/
inductive JStr where
  | absent : JStr
  | null : JStr
  | str : String → JStr
deriving DecidableEq, Repr

/-- Python `item.get(key)`: `None` when the key is absent or its value is
null, otherwise the string. -/
def JStr.get : JStr → Option String
  | .absent => none
  | .null => none
  | .str s => some s

/-- Python `item.get(key, default)`: the default only when the key is absent;
a null value still comes back as `None`. -/
def JStr.getD : JStr → String → Option String
  | .absent, d => some d
  | .null, _ => none
  | .str s, _ => some s

/-- Python truthiness of an optional string: `None` and `""` are falsy. -/
def truthyStr (o : Option String) : Bool :=
  match o with
  | none => false
  | some s => s != ""

/-- Raw provider item as it appears in the `organic` array of the response
body. Serper positions are integers; an absent or null `position` is `none`
(both print as `None` in Python). -/
structure RawItem where
  title : JStr
  link : JStr
  snippet : JStr
  position : Option Int
deriving DecidableEq, Repr

/-- Normalized record built by `serper_search` (main.py lines 93-100): the
dict `{position, title, link, snippet}`.  `snippet` keeps the Python value
`item.get("snippet", "")`, which can still be `None` when the key is null. -/
structure SearchResult where
  position : Option Int
  title : String
  link : String
  snippet : Option String
deriving DecidableEq, Repr

/-- Python truthiness of an optional list: `None` and `[]` are falsy. -/
def truthyList (o : Option (List RawItem)) : Bool :=
  match o with
  | some (_ :: _) => true
  | _ => false

/-- Line 81: `organic = data.get("organic") or data.get("organic_results") or []`.
Python `or` returns the first truthy operand, so an empty primary array falls
through to the alternate key. -/
def pickOrganic (organic organicResults : Option (List RawItem)) : List RawItem :=
  if truthyList organic then organic.getD []
  else if truthyList organicResults then organicResults.getD []
  else []

/-- Filter condition of lines 85-91: the item is kept when neither
`not title` nor `not link` holds, i.e. both are truthy. -/
def keepItem (i : RawItem) : Bool :=
  truthyStr i.title.get && truthyStr i.link.get

/-- Dict built at lines 93-100 for a kept item. For a kept item the title and
link are `some` of a non-empty string, so `getD ""` returns that string. -/
def toResult (i : RawItem) : SearchResult :=
  { position := i.position
    title := (i.title.get).getD ""
    link := (i.link.get).getD ""
    snippet := i.snippet.getD "" }

/-- Loop of lines 83-102: iterate the organic items in order, skip the ones
with a falsy title or link, append the rest. -/
def parseItems : List RawItem → List SearchResult
  | [] => []
  | i :: rest => if keepItem i then toResult i :: parseItems rest else parseItems rest

/-- Response body: either not JSON at all (so `resp.json()` raises), or a
JSON object with the two organic keys of interest. -/
inductive Body where
  | malformed : Body
  | json : Option (List RawItem) → Option (List RawItem) → Body
deriving DecidableEq

/-- Outcome of the HTTP POST of lines 67-72: a transport failure (connection
error, timeout, ...) carrying the exception text, or a response with a status
code, the exception text `raise_for_status` would use, and a body. -/
inductive HttpOutcome where
  | transportError : String → HttpOutcome
  | response : Nat → String → Body → HttpOutcome
deriving DecidableEq

/-- Python exceptions the embedded code can raise: `RuntimeError(msg)` and
the `JSONDecodeError` of `resp.json()` on a malformed body. -/
inductive PyError where
  | runtimeError : String → PyError
  | jsonDecodeError : PyError
deriving DecidableEq, Repr

/-- Lines 38-102, `serper_search`: check the API key, perform the request,
`raise_for_status` (an exception for a 4xx/5xx status), then `resp.json()`
— outside the try block — and parse the organic items. A `RequestException`
is re-raised as `RuntimeError` with the prefix of line 76. -/
def serper_search (apiKey : Option String) (outcome : HttpOutcome) :
    Except PyError (List SearchResult) :=
  if truthyStr apiKey = false then
    Except.error (PyError.runtimeError "SERPER_API_KEY is not set")
  else
    match outcome with
    | HttpOutcome.transportError m =>
        Except.error (PyError.runtimeError ("Lỗi gọi Serper API: " ++ m))
    | HttpOutcome.response status errText body =>
        if 400 ≤ status ∧ status < 600 then
          Except.error (PyError.runtimeError ("Lỗi gọi Serper API: " ++ errText))
        else
          match body with
          | Body.malformed => Except.error PyError.jsonDecodeError
          | Body.json organic organicResults =>
              Except.ok (parseItems (pickOrganic organic organicResults))

/-- Python `sep.join(parts)`, by structural recursion. -/
def joinWith (sep : String) : List String → String
  | [] => ""
  | [s] => s
  | s :: rest => s ++ sep ++ joinWith sep (rest)

/-- Python `s.strip()`: drop whitespace from both ends. -/
def pyStrip (s : String) : String :=
  String.mk (((s.data.dropWhile Char.isWhitespace).reverse.dropWhile Char.isWhitespace).reverse)

/-- Line 155: `keyword = " ".join(context.args).strip()`. -/
def keywordOf (args : List String) : String :=
  pyStrip (joinWith " " args)

/-- Usage message of lines 146-151 (sent when `/s` has no argument). -/
def usageText : String :=
  "Thiếu từ khóa.\n\nVí dụ:\n<code>/s hi88</code>\n<code>/s nhà cái hi88</code>"

/-- Error reply of lines 166-168, wrapping the `RuntimeError` text. -/
def searchErrorText (m : String) : String :=
  "Lỗi khi gọi Serper API:\n<code>" ++ m ++ "</code>"

/-- Empty-result reply of lines 172-175. -/
def noResultsText (keyword : String) : String :=
  "Không tìm thấy kết quả organic nào cho từ khóa: <b>" ++ keyword ++ "</b>"

/-- Header block of lines 180-183. -/
def headerText (keyword : String) : String :=
  "Kết quả Google cho từ khóa: <b>" ++ keyword ++ "</b>\n" ++
    "Quốc gia: <b>Việt Nam</b> (gl=vn, hl=vi)\n\n"

/-- Python `f"{pos}"` where `pos` is an optional integer: `None` prints as
the literal string `None`. -/
def posStr : Option Int → String
  | none => "None"
  | some n => toString n

/-- Lines 192-194: clip a snippet longer than 200 characters to its first
200 characters plus an ellipsis. -/
def snippetClip (snippet : String) : String :=
  if snippet.length > 200 then snippet.take 200 ++ "..." else snippet

/-- Entry block of lines 186-200 for one result: `f"{pos}. <b>{title}</b>\n{link}\n{snippet}\n"`
with `snippet = r.get("snippet") or ""` clipped by `snippetClip`. -/
def entryLine (r : SearchResult) : String :=
  posStr r.position ++ ". <b>" ++ r.title ++ "</b>\n" ++ r.link ++ "\n" ++
    snippetClip (r.snippet.getD "") ++ "\n"

/-- Lines of the reply: the header followed by one entry per result, in input
order (lines 179-200: `lines = [header]` then one `lines.append` per result). -/
def formatLines (keyword : String) (results : List SearchResult) : List String :=
  headerText keyword :: results.map entryLine

/-- Line 202: `text = "\n".join(lines)`. -/
def formatText (keyword : String) (results : List SearchResult) : String :=
  joinWith "\n" (formatLines keyword results)

/-- Lines 204-206: truncate a reply over 4000 characters to its first 3990
characters plus the fixed continuation marker. -/
def truncateText (text : String) : String :=
  if text.length > 4000 then text.take 3990 ++ "\n...(cắt bớt)..." else text

/-- Result of one run of the `/s` handler: either a reply text was sent (the
handler returned normally) or an exception escaped the handler. -/
inductive HandlerOutcome where
  | replied : String → HandlerOutcome
  | uncaught : PyError → HandlerOutcome
deriving DecidableEq

/-- Lines 140-208, `search_command`: usage message on missing args; call
`serper_search` and catch ONLY `RuntimeError` (line 165) into an error reply;
dedicated message for an empty result list; otherwise the formatted,
truncated text. Any other exception (e.g. `JSONDecodeError`) escapes. -/
def search_command (args : List String) (apiKey : Option String)
    (outcome : HttpOutcome) : HandlerOutcome :=
  if args = [] then HandlerOutcome.replied usageText
  else
    let keyword := keywordOf args
    match serper_search apiKey outcome with
    | Except.error (PyError.runtimeError m) =>
        HandlerOutcome.replied (searchErrorText m)
    | Except.error e => HandlerOutcome.uncaught e
    | Except.ok results =>
        if results = [] then HandlerOutcome.replied (noResultsText keyword)
        else HandlerOutcome.replied (truncateText (formatText keyword results))

/-- Process environment at startup: the two credentials read at lines 25-26. -/
structure Env where
  telegramBotToken : Option String
  serperApiKey : Option String

/-- Lines 214-222, the startup check of `main()`: only `TELEGRAM_BOT_TOKEN`
is validated before the bot starts polling; `SERPER_API_KEY` is not consulted
at startup (it is checked inside `serper_search`, per request). -/
def mainStartup (env : Env) : Except PyError Unit :=
  if truthyStr env.telegramBotToken = false then
    Except.error (PyError.runtimeError "TELEGRAM_BOT_TOKEN is not set in environment variables.")
  else Except.ok ()

/-- Strip an exact leading piece from a string, otherwise leave it alone. -/
def stripLead (p s : String) : String :=
  if p.data.isPrefixOf s.data then String.mk (s.data.drop p.data.length) else s

/-- Registrable domain in the sense of the specification glossary: the host
portion of a URL with the scheme and a leading `www.` removed. This
formalizes the vocabulary of the deduplication claim only; the program itself
never computes a domain. -/
def claimDomain (link : String) : String :=
  String.mk ((stripLead "www." (stripLead "https://" (stripLead "http://" link))).data.takeWhile
    (fun c => c ≠ '/'))

/-- Sequence of rank values displayed by the formatter, in emission order:
the formatter emits one entry per result in input order, and each entry
begins with `posStr` of that result's `position` (see the order and rank
theorems below). This names the claims' vocabulary; the program never
builds such a list itself. -/
def emittedRanks (results : List SearchResult) : List (Option Int) :=
  results.map SearchResult.position

/-! ## General lemmas about the embedded operations -/

/-- Every member of the joined list occurs verbatim inside the join. -/
theorem joinWith_mem (sep : String) :
    ∀ (l : List String) (s : String), s ∈ l → ∃ a b, joinWith sep l = a ++ s ++ b := by
  intro l
  induction l with
  | nil => intro s hs; cases hs
  | cons x t ih =>
    intro s hs
    cases hs with
    | head =>
      cases t with
      | nil => exact ⟨"", "", by simp [joinWith]⟩
      | cons y t2 =>
        exact ⟨"", sep ++ joinWith sep (y :: t2), by simp [joinWith, String.append_assoc]⟩
    | tail _ hmem =>
      obtain ⟨a, b, hab⟩ := ih s hmem
      cases t with
      | nil => cases hmem
      | cons y t2 =>
        refine ⟨x ++ sep ++ a, b, ?_⟩
        show x ++ sep ++ joinWith sep (y :: t2) = x ++ sep ++ a ++ s ++ b
        rw [hab]
        simp [String.append_assoc]

/-- Joining a concatenation of two non-empty lists splits at the separator. -/
theorem joinWith_append (sep : String) :
    ∀ (l1 l2 : List String), l1 ≠ [] → l2 ≠ [] →
      joinWith sep (l1 ++ l2) = joinWith sep l1 ++ sep ++ joinWith sep l2 := by
  intro l1
  induction l1 with
  | nil => intro l2 h1 _; exact absurd rfl h1
  | cons x t ih =>
    intro l2 h1 h2
    cases t with
    | nil =>
      cases l2 with
      | nil => exact absurd rfl h2
      | cons y t2 => simp [joinWith]
    | cons y t2 =>
      have hih := ih l2 (List.cons_ne_nil y t2) h2
      simp only [List.cons_append] at hih ⊢
      simp [joinWith, hih, String.append_assoc]

/-- Recomposition of `String.take` and `String.drop`. -/
theorem string_take_append_drop (s : String) (n : Nat) : s.take n ++ s.drop n = s := by
  apply String.ext
  rw [String.data_append, String.data_take, String.data_drop, List.take_append_drop]

/-- Length of `String.take`. -/
theorem string_length_take (s : String) (n : Nat) : (s.take n).length = min n s.length := by
  rw [String.length, String.data_take, List.length_take, String.length]

/-- A truthy optional string holds a non-empty string. -/
theorem truthyStr_getD_ne (o : Option String) (h : truthyStr o = true) : o.getD "" ≠ "" := by
  cases o with
  | none => simp [truthyStr] at h
  | some s => simpa [truthyStr] using h

/-! ## Claim theorems -/

/-- C1 (counterexample): the formatter does NOT deduplicate by domain. On the
claim's own input — two results whose links both have registrable domain
`a.com` — the rendered reply is not the reply that keeps only the first
entry: the second entry is rendered as well. -/
theorem C1_counterexample :
    claimDomain "https://www.a.com" = claimDomain "http://a.com" ∧
    formatText "k"
        [⟨some 1, "A", "https://www.a.com", some ""⟩,
         ⟨some 1, "B", "http://a.com", some ""⟩] ≠
      formatText "k" [⟨some 1, "A", "https://www.a.com", some ""⟩] := by
  exact ⟨by decide, by decide⟩

/-- C1 (amended): the formatter performs no domain-based deduplication.
Every result of the input list — including one whose link has the same
registrable domain as an earlier result — is rendered as its own entry
occurring verbatim in the reply text. -/
theorem C1_no_dedup (keyword : String) (results : List SearchResult)
    (r : SearchResult) (hr : r ∈ results) :
    ∃ a b, formatText keyword results = a ++ entryLine r ++ b := by
  have hmem : entryLine r ∈ formatLines keyword results :=
    List.mem_cons_of_mem _ (List.mem_map_of_mem entryLine hr)
  exact joinWith_mem "\n" (formatLines keyword results) (entryLine r) hmem

/-- C1 (witness): both same-domain entries of the counterexample input occur
in the rendered reply. -/
theorem C1_no_dedup_witness :
    (⟨some 1, "B", "http://a.com", some ""⟩ : SearchResult) ∈
      [(⟨some 1, "A", "https://www.a.com", some ""⟩ : SearchResult),
       ⟨some 1, "B", "http://a.com", some ""⟩] ∧
    ∃ a b,
      formatText "k"
          [⟨some 1, "A", "https://www.a.com", some ""⟩,
           ⟨some 1, "B", "http://a.com", some ""⟩]
        = a ++ entryLine ⟨some 1, "B", "http://a.com", some ""⟩ ++ b :=
  ⟨by decide, C1_no_dedup "k" _ _ (by decide)⟩

/-- C3 (counterexample): the formatter does not sort by rank. With provider
positions `[2, 1]` the reply renders rank 2 before rank 1, a decreasing
sequence of emitted ranks. -/
theorem C3_counterexample :
    formatText "k"
        [⟨some 2, "A", "https://a.com", some ""⟩,
         ⟨some 1, "B", "https://b.com", some ""⟩]
      = headerText "k" ++ "\n2. <b>A</b>\nhttps://a.com\n\n\n1. <b>B</b>\nhttps://b.com\n\n" ∧
    emittedRanks
        [⟨some 2, "A", "https://a.com", some ""⟩,
         ⟨some 1, "B", "https://b.com", some ""⟩]
      = [some 2, some 1] ∧
    ¬ ((2 : Int) ≤ 1) := by
  exact ⟨by decide, by decide, by decide⟩

/-- C3 (amended): the formatter emits entries in provider order and applies
no sorting: appending further results to the input list only appends their
rendering after the rendering of the earlier results. -/
theorem C3_provider_order (keyword : String) (xs ys : List SearchResult)
    (hys : ys ≠ []) :
    formatText keyword (xs ++ ys)
      = formatText keyword xs ++ "\n" ++ joinWith "\n" (ys.map entryLine) := by
  have h1 : formatLines keyword (xs ++ ys)
      = formatLines keyword xs ++ ys.map entryLine := by
    simp [formatLines]
  have h2 : ys.map entryLine ≠ [] := by
    simpa using hys
  rw [formatText, h1,
    joinWith_append "\n" (formatLines keyword xs) (ys.map entryLine)
      (List.cons_ne_nil _ _) h2]
  rfl

/-- C3 (witness): appending a rank-1 result after a rank-2 result extends the
reply on the right, keeping provider order. -/
theorem C3_provider_order_witness :
    formatText "k"
        ([⟨some 2, "A", "https://a.com", some ""⟩] ++
         [⟨some 1, "B", "https://b.com", some ""⟩])
      = formatText "k" [⟨some 2, "A", "https://a.com", some ""⟩] ++ "\n" ++
          joinWith "\n" ([(⟨some 1, "B", "https://b.com", some ""⟩ : SearchResult)].map entryLine) :=
  C3_provider_order "k" _ _ (by decide)

/-- C4 (counterexample): a result lacking a provider position is not given
the fallback rank 1: the reply prints the literal `None` as its rank. -/
theorem C4_counterexample :
    formatText "k" [⟨none, "A", "https://a.com", some ""⟩]
      = headerText "k" ++ "\nNone. <b>A</b>\nhttps://a.com\n\n" ∧
    posStr none ≠ "1" := by
  exact ⟨by decide, by decide⟩

/-- C4 (amended): the displayed rank of every entry is the provider position
rendered verbatim: an integer position prints as that integer, and a missing
(or null) position prints as the literal `None`; no fallback
`(count of already-kept results) + 1` rank is ever assigned. -/
theorem C4_rank_verbatim (r : SearchResult) :
    (∃ t, entryLine r = posStr r.position ++ ". " ++ t) ∧
    posStr none = "None" ∧ ∀ n : Int, posStr (some n) = toString n := by
  refine ⟨⟨"<b>" ++ r.title ++ "</b>\n" ++ r.link ++ "\n" ++
    snippetClip (r.snippet.getD "") ++ "\n", ?_⟩, rfl, fun _ => rfl⟩
  rw [entryLine]
  simp only [String.append_assoc]
  rfl

/-- C5: a reply text of at most 4000 characters is sent unmodified; a longer
one is replaced by one of its prefixes of at most 4000 characters (namely the
first 3990 characters) followed by the fixed continuation suffix. -/
theorem C5_truncation (text : String) :
    (text.length ≤ 4000 → truncateText text = text) ∧
    (4000 < text.length →
      ∃ p q, truncateText text = p ++ "\n...(cắt bớt)..." ∧
        text = p ++ q ∧ p.length ≤ 4000) := by
  constructor
  · intro h
    rw [truncateText, if_neg (by omega)]
  · intro h
    refine ⟨text.take 3990, text.drop 3990, ?_, (string_take_append_drop text 3990).symm, ?_⟩
    · rw [truncateText, if_pos (by omega)]
    · rw [string_length_take]
      omega

/-- C5 (witness): a 5000-character body is truncated to a 4000-character-bounded
prefix plus the fixed suffix. -/
theorem C5_truncation_witness :
    4000 < (String.mk (List.replicate 5000 'a')).length ∧
    ∃ p q, truncateText (String.mk (List.replicate 5000 'a')) = p ++ "\n...(cắt bớt)..." ∧
      String.mk (List.replicate 5000 'a') = p ++ q ∧ p.length ≤ 4000 := by
  have hlen : (String.mk (List.replicate 5000 'a')).length = 5000 := by
    rw [String.length]
    show (List.replicate 5000 'a').length = 5000
    rw [List.length_replicate]
  have h : 4000 < (String.mk (List.replicate 5000 'a')).length := by
    rw [hlen]
    omega
  exact ⟨h, (C5_truncation (String.mk (List.replicate 5000 'a'))).2 h⟩

/-- C6: the search client's output list is exactly the input items that have
a truthy (present, non-empty) title and link, normalized in provider order;
in particular every retained record has a non-empty title and link. -/
theorem C6_filter_invariant (items : List RawItem) :
    parseItems items = (items.filter keepItem).map toResult ∧
    ∀ r, r ∈ parseItems items → r.title ≠ "" ∧ r.link ≠ "" := by
  have hfil : ∀ l : List RawItem, parseItems l = (l.filter keepItem).map toResult := by
    intro l
    induction l with
    | nil => rfl
    | cons i rest ih =>
      by_cases h : keepItem i = true
      · simp [parseItems, List.filter_cons, h, ih]
      · simp [parseItems, List.filter_cons, h, ih]
  refine ⟨hfil items, ?_⟩
  intro r hr
  rw [hfil items] at hr
  obtain ⟨i, hi, hri⟩ := List.mem_map.mp hr
  have hk : keepItem i = true := (List.mem_filter.mp hi).2
  rw [keepItem, Bool.and_eq_true] at hk
  have ht := truthyStr_getD_ne _ hk.1
  have hl := truthyStr_getD_ne _ hk.2
  rw [← hri]
  exact ⟨ht, hl⟩

/-- C6 (witness): on a concrete batch, the items lacking a title or link are
dropped, the rest survive in order, and a retained record has non-empty
title and link. -/
theorem C6_filter_invariant_witness :
    parseItems
        [⟨JStr.str "T1", JStr.str "L1", JStr.absent, some 1⟩,
         ⟨JStr.absent, JStr.str "L2", JStr.null, some 2⟩,
         ⟨JStr.str "", JStr.str "L3", JStr.str "s", none⟩,
         ⟨JStr.str "T4", JStr.null, JStr.str "s", none⟩,
         ⟨JStr.str "T5", JStr.str "L5", JStr.str "s5", some 5⟩]
      = ([⟨JStr.str "T1", JStr.str "L1", JStr.absent, some 1⟩,
          ⟨JStr.absent, JStr.str "L2", JStr.null, some 2⟩,
          ⟨JStr.str "", JStr.str "L3", JStr.str "s", none⟩,
          ⟨JStr.str "T4", JStr.null, JStr.str "s", none⟩,
          ⟨JStr.str "T5", JStr.str "L5", JStr.str "s5", some 5⟩].filter keepItem).map toResult ∧
    (⟨some 1, "T1", "L1", some ""⟩ : SearchResult).title ≠ "" ∧
    (⟨some 1, "T1", "L1", some ""⟩ : SearchResult).link ≠ "" := by
  have h := C6_filter_invariant
    [⟨JStr.str "T1", JStr.str "L1", JStr.absent, some 1⟩,
     ⟨JStr.absent, JStr.str "L2", JStr.null, some 2⟩,
     ⟨JStr.str "", JStr.str "L3", JStr.str "s", none⟩,
     ⟨JStr.str "T4", JStr.null, JStr.str "s", none⟩,
     ⟨JStr.str "T5", JStr.str "L5", JStr.str "s5", some 5⟩]
  exact ⟨h.1, h.2 ⟨some 1, "T1", "L1", some ""⟩ (by decide)⟩

/-- C7 (counterexample): the fallback is driven by Python truthiness, not by
key absence. When the primary key `organic` is present holding an empty
array and the alternate key holds one item, the code parses the alternate
key's item instead of the primary's empty array. -/
theorem C7_counterexample :
    pickOrganic (some []) (some [⟨JStr.str "T", JStr.str "L", JStr.absent, some 1⟩])
      = [⟨JStr.str "T", JStr.str "L", JStr.absent, some 1⟩] ∧
    pickOrganic (some []) (some [⟨JStr.str "T", JStr.str "L", JStr.absent, some 1⟩])
      ≠ [] := by
  exact ⟨by decide, by decide⟩

/-- C7 (amended): the primary key's array is used when it is non-empty; the
alternate key is consulted whenever the primary is absent OR holds an empty
array (Python `or` falls through on any falsy value); when both are absent
or empty the result is the empty list. -/
theorem C7_or_fallback (a b : Option (List RawItem)) (l : List RawItem) :
    (a = some l → l ≠ [] → pickOrganic a b = l) ∧
    ((a = none ∨ a = some []) → b = some l → l ≠ [] → pickOrganic a b = l) ∧
    ((a = none ∨ a = some []) → (b = none ∨ b = some []) → pickOrganic a b = []) := by
  refine ⟨?_, ?_, ?_⟩
  · intro ha hl
    subst ha
    cases l with
    | nil => exact absurd rfl hl
    | cons x t => simp [pickOrganic, truthyList]
  · intro ha hb hl
    subst hb
    have hfa : truthyList a = false := by
      rcases ha with h | h <;> subst h <;> rfl
    cases l with
    | nil => exact absurd rfl hl
    | cons x t =>
      simp only [pickOrganic, hfa]
      simp [truthyList]
  · intro ha hb
    have hfa : truthyList a = false := by
      rcases ha with h | h <;> subst h <;> rfl
    have hfb : truthyList b = false := by
      rcases hb with h | h <;> subst h <;> rfl
    simp [pickOrganic, hfa, hfb]

/-- C7 (witness): concrete instances of the three fallback behaviours. -/
theorem C7_or_fallback_witness :
    pickOrganic (some [⟨JStr.str "P", JStr.str "LP", JStr.absent, some 1⟩]) none
      = [⟨JStr.str "P", JStr.str "LP", JStr.absent, some 1⟩] ∧
    pickOrganic none (some [⟨JStr.str "S", JStr.str "LS", JStr.absent, some 2⟩])
      = [⟨JStr.str "S", JStr.str "LS", JStr.absent, some 2⟩] ∧
    pickOrganic (some []) (some []) = [] := by
  refine ⟨?_, ?_, ?_⟩
  · exact (C7_or_fallback (some [⟨JStr.str "P", JStr.str "LP", JStr.absent, some 1⟩]) none
      [⟨JStr.str "P", JStr.str "LP", JStr.absent, some 1⟩]).1 rfl (by decide)
  · exact (C7_or_fallback none (some [⟨JStr.str "S", JStr.str "LS", JStr.absent, some 2⟩])
      [⟨JStr.str "S", JStr.str "LS", JStr.absent, some 2⟩]).2.1 (Or.inl rfl) rfl (by decide)
  · exact (C7_or_fallback (some []) (some []) []).2.2 (Or.inr rfl) (Or.inr rfl)

/-- C2 (counterexample): a malformed (non-JSON) response body is NOT
recovered by the command handler: `resp.json()` is evaluated outside the
try block, so the `JSONDecodeError` escapes the handler instead of being
reported to the user. -/
theorem C2_counterexample :
    search_command ["k"] (some "key") (HttpOutcome.response 200 "" Body.malformed)
      = HandlerOutcome.uncaught PyError.jsonDecodeError := by decide

/-- C2 (amended): a transport error or a 4xx/5xx HTTP status is recovered
locally — the handler returns normally with a reply containing the error
cause — but a malformed response body raises an uncaught `JSONDecodeError`
out of the handler. -/
theorem C2_error_recovery (args : List String) (key : Option String)
    (m : String) (status : Nat) (errText : String) (body : Body)
    (hargs : args ≠ []) (hkey : truthyStr key = true) :
    search_command args key (HttpOutcome.transportError m)
        = HandlerOutcome.replied (searchErrorText ("Lỗi gọi Serper API: " ++ m)) ∧
    (∃ a b, searchErrorText ("Lỗi gọi Serper API: " ++ m) = a ++ m ++ b) ∧
    (400 ≤ status → status < 600 →
      search_command args key (HttpOutcome.response status errText body)
        = HandlerOutcome.replied (searchErrorText ("Lỗi gọi Serper API: " ++ errText))) ∧
    search_command args key (HttpOutcome.response 200 "" Body.malformed)
        = HandlerOutcome.uncaught PyError.jsonDecodeError := by
  refine ⟨?_, ?_, ?_, ?_⟩
  · simp [search_command, serper_search, hargs, hkey]
  · exact ⟨"Lỗi khi gọi Serper API:\n<code>" ++ "Lỗi gọi Serper API: ", "</code>",
      by simp only [searchErrorText, String.append_assoc]⟩
  · intro h1 h2
    simp [search_command, serper_search, hargs, hkey, h1, h2]
  · simp [search_command, serper_search, hargs, hkey]

/-- C2 (witness): concrete transport-error and 500-status requests produce
an error reply carrying the cause, while a malformed 200 body escapes. -/
theorem C2_error_recovery_witness :
    search_command ["k"] (some "x") (HttpOutcome.transportError "boom")
        = HandlerOutcome.replied (searchErrorText ("Lỗi gọi Serper API: " ++ "boom")) ∧
    (∃ a b, searchErrorText ("Lỗi gọi Serper API: " ++ "boom") = a ++ "boom" ++ b) ∧
    search_command ["k"] (some "x")
        (HttpOutcome.response 500 "500 Server Error" (Body.json none none))
        = HandlerOutcome.replied (searchErrorText ("Lỗi gọi Serper API: " ++ "500 Server Error")) ∧
    search_command ["k"] (some "x") (HttpOutcome.response 200 "" Body.malformed)
        = HandlerOutcome.uncaught PyError.jsonDecodeError := by
  have h := C2_error_recovery ["k"] (some "x") "boom" 500 "500 Server Error"
    (Body.json none none) (by decide) (by decide)
  exact ⟨h.1, h.2.1, h.2.2.1 (by omega) (by omega), h.2.2.2⟩

/-- C8 (counterexample): a missing search-provider API key is NOT a fatal
startup condition: with the bot token present and the key absent, startup
succeeds and the bot begins serving commands. -/
theorem C8_counterexample :
    mainStartup { telegramBotToken := some "t", serperApiKey := none } = Except.ok () ∧
    truthyStr (none : Option String) = false :=
  ⟨rfl, rfl⟩

/-- C8 (amended): only the bot token is validated at startup — its absence
raises before request handling begins; an absent API key leaves startup
untouched and instead makes every search request fail with a `RuntimeError`
that the handler reports to the user. -/
theorem C8_startup_check (env : Env) (args : List String) (outcome : HttpOutcome) :
    (truthyStr env.telegramBotToken = false →
      mainStartup env
        = Except.error
            (PyError.runtimeError "TELEGRAM_BOT_TOKEN is not set in environment variables.")) ∧
    (truthyStr env.telegramBotToken = true → mainStartup env = Except.ok ()) ∧
    (args ≠ [] → truthyStr env.serperApiKey = false →
      search_command args env.serperApiKey outcome
        = HandlerOutcome.replied (searchErrorText "SERPER_API_KEY is not set")) := by
  refine ⟨?_, ?_, ?_⟩
  · intro h
    simp [mainStartup, h]
  · intro h
    simp [mainStartup, h]
  · intro hargs hk
    simp [search_command, serper_search, hargs, hk]

/-- C8 (witness): a missing token is fatal, a present token starts the bot,
and with a missing key the `/s` handler replies the key error. -/
theorem C8_startup_check_witness :
    mainStartup { telegramBotToken := none, serperApiKey := some "x" }
      = Except.error
          (PyError.runtimeError "TELEGRAM_BOT_TOKEN is not set in environment variables.") ∧
    mainStartup { telegramBotToken := some "t", serperApiKey := some "x" } = Except.ok () ∧
    search_command ["q"] (none : Option String) (HttpOutcome.transportError "t")
      = HandlerOutcome.replied (searchErrorText "SERPER_API_KEY is not set") := by
  refine ⟨(C8_startup_check ⟨none, some "x"⟩ ["q"] (HttpOutcome.transportError "t")).1 (by decide),
    (C8_startup_check ⟨some "t", some "x"⟩ ["q"] (HttpOutcome.transportError "t")).2.1 (by decide),
    (C8_startup_check ⟨some "t", none⟩ ["q"] (HttpOutcome.transportError "t")).2.2
      (by decide) (by decide)⟩

/-- C9: when the search succeeds with an empty (all-filtered) result list,
the reply is exactly the no-results message, that message contains the
keyword, and it differs from a header-only rendering of an empty list. -/
theorem C9_empty_results (args : List String) (key : Option String)
    (outcome : HttpOutcome) (hargs : args ≠ [])
    (hok : serper_search key outcome = Except.ok []) :
    search_command args key outcome
        = HandlerOutcome.replied (noResultsText (keywordOf args)) ∧
    (∃ a b, noResultsText (keywordOf args) = a ++ keywordOf args ++ b) ∧
    noResultsText (keywordOf args) ≠ formatText (keywordOf args) [] := by
  refine ⟨?_,
    ⟨"Không tìm thấy kết quả organic nào cho từ khóa: <b>", "</b>", rfl⟩, ?_⟩
  · simp [search_command, hargs, hok]
  · intro heq
    have hf : formatText (keywordOf args) [] = headerText (keywordOf args) := rfl
    rw [hf] at heq
    have hlen := congrArg String.length heq
    rw [noResultsText, headerText] at hlen
    simp only [String.length_append] at hlen
    have e1 : ("Không tìm thấy kết quả organic nào cho từ khóa: <b>" : String).length = 51 := by
      decide
    have e2 : ("</b>" : String).length = 4 := by decide
    have e3 : ("Kết quả Google cho từ khóa: <b>" : String).length = 31 := by decide
    have e4 : ("</b>\n" : String).length = 5 := by decide
    have e5 : ("Quốc gia: <b>Việt Nam</b> (gl=vn, hl=vi)\n\n" : String).length = 42 := by decide
    rw [e1, e2, e3, e4, e5] at hlen
    omega

/-- C9 (witness): a response whose primary organic array is empty yields the
no-results reply for the searched keyword. -/
theorem C9_empty_results_witness :
    search_command ["k"] (some "x") (HttpOutcome.response 200 "" (Body.json (some []) none))
        = HandlerOutcome.replied (noResultsText (keywordOf ["k"])) ∧
    (∃ a b, noResultsText (keywordOf ["k"]) = a ++ keywordOf ["k"] ++ b) ∧
    noResultsText (keywordOf ["k"]) ≠ formatText (keywordOf ["k"]) [] :=
  C9_empty_results ["k"] (some "x")
    (HttpOutcome.response 200 "" (Body.json (some []) none)) (by decide) rfl

/-- C10: the snippet segment of every rendered entry is the clipped snippet:
a snippet over 200 characters is replaced by its first 200 characters plus
an ellipsis (at most 203 characters shown), one of at most 200 characters is
shown unmodified, and a missing or null snippet renders as the empty
string. -/
theorem C10_snippet_clip (r : SearchResult) (s : String) :
    (∃ pre, entryLine r = pre ++ (snippetClip (r.snippet.getD "") ++ "\n")) ∧
    (200 < s.length →
      snippetClip s = s.take 200 ++ "..." ∧ (snippetClip s).length ≤ 203) ∧
    (s.length ≤ 200 → snippetClip s = s) ∧
    (r.snippet = none → snippetClip (r.snippet.getD "") = "") := by
  refine ⟨⟨posStr r.position ++ ". <b>" ++ r.title ++ "</b>\n" ++ r.link ++ "\n", ?_⟩,
    ?_, ?_, ?_⟩
  · rw [entryLine]
    simp [String.append_assoc]
  · intro h
    have hcl : snippetClip s = s.take 200 ++ "..." := by
      rw [snippetClip, if_pos (by omega)]
    refine ⟨hcl, ?_⟩
    rw [hcl, String.length_append, string_length_take]
    have e : ("..." : String).length = 3 := by decide
    rw [e]
    omega
  · intro h
    rw [snippetClip, if_neg (by omega)]
  · intro h
    rw [h]
    rfl

/-- C10 (witness): a 201-character snippet is clipped to 200 characters plus
the ellipsis, a 2-character snippet passes unmodified, and a null snippet
renders empty. -/
theorem C10_snippet_clip_witness :
    (∃ pre, entryLine ⟨none, "T", "https://t.com", none⟩
        = pre ++ (snippetClip ((none : Option String).getD "") ++ "\n")) ∧
    (snippetClip (String.mk (List.replicate 201 'x'))
        = (String.mk (List.replicate 201 'x')).take 200 ++ "..." ∧
      (snippetClip (String.mk (List.replicate 201 'x'))).length ≤ 203) ∧
    snippetClip "hi" = "hi" ∧
    snippetClip ((none : Option String).getD "") = "" := by
  have h1 := C10_snippet_clip ⟨none, "T", "https://t.com", none⟩
    (String.mk (List.replicate 201 'x'))
  have h2 := C10_snippet_clip ⟨none, "T", "https://t.com", none⟩ "hi"
  have hlen : (String.mk (List.replicate 201 'x')).length = 201 := by
    rw [String.length]
    show (List.replicate 201 'x').length = 201
    rw [List.length_replicate]
  exact ⟨h1.1, h1.2.1 (by rw [hlen]; omega), h2.2.2.1 (by decide), h1.2.2.2 rfl⟩
